import Mathlib

/-!
Verification development for the HTTrojan bitstream reverse-engineering /
Trojan-detection engine (Virtex-5 VLX50T).

Shallow embedding of the Python sources:
  * `analysis/frame_rules.py`           (device tables, FAR codec, validation)
  * `analysis/assembler/column_mapper.py` (column descriptors)
  * `analysis/assembler/frame_mapper.py`  (forward mapper, resource categories)
  * `src/mapping/integration/frame_obj_adapter.py` (bit extraction, frame diff)
  * `src/mapping/integration/bitstream_loader.py`  (loaded bitstream indices)
  * `src/detector/baseline/golden_baseline.py` and `baseline_builder.py`
  * `src/detector/differential/frame_anomaly.py` (anomaly model, report counts)
  * `src/detector/differential/frame_differential_detector.py` (detector)
  * `src/parser/payload_lexer.py`        (packet lexer, FDRI column walker)

Modelling conventions:
  * Python ints are `Nat`; byte strings are `List Nat` (each entry one byte).
  * Python `set` values are modelled as duplicate-free lists in first-occurrence
    order; Python set iteration order is unspecified, and every fact proved
    below about sets is order-insensitive (membership, counts, emptiness).
  * Fallible code (`raise`) is modelled with `Except String`.
  * Purely informational string fields of anomalies and reports (anomaly ids,
    descriptions, reason strings, report summaries) are not modelled; they are
    never read back by the detection logic.  Confidence scores (Python floats
    0.0-1.0) are modelled in hundredths as `Nat` (0.95 -> 95); no theorem
    below depends on a confidence value.
-/

set_option maxHeartbeats 2000000
set_option maxRecDepth 40000

deriving instance DecidableEq for Except

namespace HTTrojan

/-! ## Device tables (`analysis/frame_rules.py`, Section D) -/

/-- Column types, `ColumnClassification.COL_TYPE_*` in `frame_rules.py`. -/
inductive ColumnType where
  | clb
  | iob
  | bram
  | clk
  | unknownCol
deriving DecidableEq

/-- `ColumnClassification.COLUMN_MAP`: column index to
`(column_type, tile_types, frames_per_column, routing_frames, logic_frames)`.
Returns `none` outside `0..47` (Python dict lookup miss). -/
def columnMap (major : Nat) : Option (ColumnType × List String × Nat × Nat × Nat) :=
  match major with
  | 0  => some (.iob, ["LIOI", "INT"], 54, 54, 0)
  | 1  => some (.clb, ["CLBLL", "INT"], 36, 22, 14)
  | 2  => some (.clb, ["CLBLM", "INT"], 36, 22, 14)
  | 3  => some (.clb, ["CLBLL", "INT"], 36, 22, 14)
  | 4  => some (.bram, ["BRAM", "BRAM_INT"], 92, 28, 64)
  | 5  => some (.clb, ["CLBLL", "INT"], 36, 22, 14)
  | 6  => some (.clb, ["CLBLM", "INT"], 36, 22, 14)
  | 7  => some (.clb, ["CLBLL", "INT"], 36, 22, 14)
  | 8  => some (.bram, ["BRAM", "BRAM_INT"], 92, 28, 64)
  | 9  => some (.clb, ["CLBLL", "INT"], 36, 22, 14)
  | 10 => some (.clb, ["CLBLM", "INT"], 36, 22, 14)
  | 11 => some (.clb, ["CLBLL", "INT"], 36, 22, 14)
  | 12 => some (.bram, ["BRAM", "BRAM_INT"], 92, 28, 64)
  | 13 => some (.clb, ["CLBLL", "INT"], 36, 22, 14)
  | 14 => some (.clb, ["CLBLM", "INT"], 36, 22, 14)
  | 15 => some (.clb, ["CLBLL", "INT"], 36, 22, 14)
  | 16 => some (.bram, ["BRAM", "BRAM_INT"], 92, 28, 64)
  | 17 => some (.clb, ["CLBLL", "INT"], 36, 22, 14)
  | 18 => some (.clb, ["CLBLM", "INT"], 36, 22, 14)
  | 19 => some (.clb, ["CLBLL", "INT"], 36, 22, 14)
  | 20 => some (.bram, ["BRAM", "BRAM_INT"], 92, 28, 64)
  | 21 => some (.clb, ["CLBLL", "INT"], 36, 22, 14)
  | 22 => some (.clb, ["CLBLM", "INT"], 36, 22, 14)
  | 23 => some (.clk, ["HCLK", "INT"], 4, 4, 0)
  | 24 => some (.clk, ["HCLK", "INT"], 4, 4, 0)
  | 25 => some (.clb, ["CLBLL", "INT"], 36, 22, 14)
  | 26 => some (.clb, ["CLBLM", "INT"], 36, 22, 14)
  | 27 => some (.clb, ["CLBLL", "INT"], 36, 22, 14)
  | 28 => some (.bram, ["BRAM", "BRAM_INT"], 92, 28, 64)
  | 29 => some (.clb, ["CLBLL", "INT"], 36, 22, 14)
  | 30 => some (.clb, ["CLBLM", "INT"], 36, 22, 14)
  | 31 => some (.clb, ["CLBLL", "INT"], 36, 22, 14)
  | 32 => some (.bram, ["BRAM", "BRAM_INT"], 92, 28, 64)
  | 33 => some (.clb, ["CLBLL", "INT"], 36, 22, 14)
  | 34 => some (.clb, ["CLBLM", "INT"], 36, 22, 14)
  | 35 => some (.clb, ["CLBLL", "INT"], 36, 22, 14)
  | 36 => some (.bram, ["BRAM", "BRAM_INT"], 92, 28, 64)
  | 37 => some (.clb, ["CLBLL", "INT"], 36, 22, 14)
  | 38 => some (.clb, ["CLBLM", "INT"], 36, 22, 14)
  | 39 => some (.clb, ["CLBLL", "INT"], 36, 22, 14)
  | 40 => some (.bram, ["BRAM", "BRAM_INT"], 92, 28, 64)
  | 41 => some (.clb, ["CLBLL", "INT"], 36, 22, 14)
  | 42 => some (.clb, ["CLBLM", "INT"], 36, 22, 14)
  | 43 => some (.clb, ["CLBLL", "INT"], 36, 22, 14)
  | 44 => some (.bram, ["BRAM", "BRAM_INT"], 92, 28, 64)
  | 45 => some (.clb, ["CLBLL", "INT"], 36, 22, 14)
  | 46 => some (.clb, ["CLBLM", "INT"], 36, 22, 14)
  | 47 => some (.iob, ["RIOI", "INT"], 54, 54, 0)
  | _  => none

/-- `ColumnClassification.get_column_type` (returns "UNKNOWN" on miss). -/
def getColumnType (major : Nat) : ColumnType :=
  match columnMap major with
  | some e => e.1
  | none => .unknownCol

/-- `ColumnClassification.get_tile_types_in_column` (returns `[]` on miss). -/
def tileTypesInColumn (major : Nat) : List String :=
  match columnMap major with
  | some e => e.2.1
  | none => []

/-- `ColumnClassification.get_frames_per_column` (returns `0` on miss). -/
def framesPerColumn (major : Nat) : Nat :=
  match columnMap major with
  | some e => e.2.2.1
  | none => 0

/-- `ColumnClassification.get_routing_frames_count` (returns `0` on miss). -/
def routingFramesCount (major : Nat) : Nat :=
  match columnMap major with
  | some e => e.2.2.2.1
  | none => 0

/-- `ColumnClassification.get_logic_frames_count` (returns `0` on miss). -/
def logicFramesCount (major : Nat) : Nat :=
  match columnMap major with
  | some e => e.2.2.2.2
  | none => 0

/-! ## FAR codec (`analysis/frame_rules.py`, class `FrameAddress`)

The field constants in the source are `BLOCK_TYPE_START = 23`, `TOP_BIT = 22`,
`MAJOR_START = 17` (6 bits) and `MINOR_START = 0` (17 bits).  Note that the
6-bit major field `[22:17]` overlaps the top/bottom bit `[22]`. -/

/-- Decoded FAR fields (the dict returned by `FrameAddress.decode`). -/
structure FarFields where
  block_type : Nat
  top_bottom : Nat
  major : Nat
  minor : Nat
deriving DecidableEq

/-- `FrameAddress.decode`. -/
def farDecode (far : Nat) : FarFields :=
  { block_type := (far >>> 23) &&& 0x7
  , top_bottom := (far >>> 22) &&& 0x1
  , major := (far >>> 17) &&& 0x3F
  , minor := far &&& 0x1FFFF }

/-- `FrameAddress.encode`. -/
def farEncode (block_type top_bottom major minor : Nat) : Nat :=
  ((block_type &&& 0x7) <<< 23) |||
  ((top_bottom &&& 0x1) <<< 22) |||
  ((major &&& 0x3F) <<< 17) |||
  (minor &&& 0x1FFFF)

/-- `FrameAddress.validate` (the boolean part of the `(is_valid, msg)` pair;
the error strings are informational). -/
def farValidate (far : Nat) : Bool :=
  let f := farDecode far
  if 7 < f.block_type then false
  else if 47 < f.major then false
  else if getColumnType f.major = .unknownCol then false
  else if framesPerColumn f.major ≤ f.minor then false
  else true

/-! ## Block types (`analysis/frame_rules.py`, class `BlockType`)

`CLB = 0`, `IOB = 1`, `BRAM_CONTENT = 2`, `BRAM_INT = 3`, `DSP = 4`,
`CLK = 5`, `CFG = 6`, `RESERVED = 7`.  The `PROPERTIES` dict only has keys
0,1,2,3,5; `get_properties` returns `{}` for the others, so the two lookups
below are `False` there. -/

/-- `BlockType.contains_routing` (from the `PROPERTIES` table). -/
def blockContainsRouting (block : Nat) : Bool :=
  match block with
  | 0 => true
  | 1 => true
  | 2 => false
  | 3 => true
  | 5 => true
  | _ => false

/-- `BlockType.contains_logic` (from the `PROPERTIES` table). -/
def blockContainsLogic (block : Nat) : Bool :=
  match block with
  | 0 => true
  | 1 => false
  | 2 => true
  | 3 => false
  | 5 => false
  | _ => false

/-! ## Column descriptors (`analysis/assembler/column_mapper.py`) -/

/-- `ColumnDescriptor` (the fields the mapper reads). -/
structure ColumnDescriptor where
  column_index : Nat
  column_type : ColumnType
  tile_types : List String
  frames_per_column : Nat
  routing_frame_count : Nat
  logic_frame_count : Nat
  block_type_default : Nat
deriving DecidableEq

/-- `ColumnDescriptor.get_block_type_for_minor`: BRAM columns split at
minor 28 (`BRAM_INT = 3` below, `BRAM_CONTENT = 2` from 28 up). -/
def ColumnDescriptor.blockTypeForMinor (cd : ColumnDescriptor) (minor : Nat) : Nat :=
  if cd.column_type = .bram then
    if minor < 28 then 3 else 2
  else cd.block_type_default

/-- `ColumnDescriptor.is_routing_frame`. -/
def ColumnDescriptor.isRoutingFrame (cd : ColumnDescriptor) (minor : Nat) : Bool :=
  minor < cd.routing_frame_count

/-- Default block type per column type, from
`ColumnMapper._build_column_descriptors` (BRAM columns default to
`BRAM_CONTENT = 2`; the unknown fallback is `CLB = 0`). -/
def blockTypeDefaultFor (ct : ColumnType) : Nat :=
  match ct with
  | .clb => 0
  | .bram => 2
  | .iob => 1
  | .clk => 5
  | .unknownCol => 0

/-- `ColumnMapper.get_column_descriptor`: descriptors exist exactly for
columns `0..47` (`_build_column_descriptors` loops over `range(48)`; for those
indices `columnMap` is `some`). -/
def getColumnDescriptor (major : Nat) : Option ColumnDescriptor :=
  if major < 48 then
    some { column_index := major
         , column_type := getColumnType major
         , tile_types := tileTypesInColumn major
         , frames_per_column := framesPerColumn major
         , routing_frame_count := routingFramesCount major
         , logic_frame_count := logicFramesCount major
         , block_type_default := blockTypeDefaultFor (getColumnType major) }
  else none

/-! ## Forward mapper (`analysis/assembler/frame_mapper.py`) -/

/-- `ResourceCategory` enum (`IO` is rendered `ioCat` here). -/
inductive ResourceCategory where
  | routing
  | logic
  | memory
  | clock
  | ioCat
  | control
  | unknownCat
deriving DecidableEq

/-- Set-insertion into the category set; the list is kept duplicate-free in
insertion order (Python uses a `set`, whose iteration order is unspecified;
every claim below reads the categories only through membership). -/
def addCat (l : List ResourceCategory) (c : ResourceCategory) : List ResourceCategory :=
  if c ∈ l then l else l ++ [c]

/-- `FrameMapper._classify_resources`.  Note the order of operations in the
source: the `contains_routing` / `contains_logic` block-type properties seed
the set BEFORE the per-block branch runs. -/
def classifyResources (block : Nat) (cd : ColumnDescriptor) (minor : Nat) :
    List ResourceCategory :=
  let cats : List ResourceCategory := []
  let cats := if blockContainsRouting block then addCat cats .routing else cats
  let cats := if blockContainsLogic block then addCat cats .logic else cats
  let cats :=
    if block = 0 then
      if cd.isRoutingFrame minor then addCat cats .routing else addCat cats .logic
    else if block = 1 then addCat (addCat cats .ioCat) .routing
    else if block = 2 then addCat cats .memory
    else if block = 3 then addCat cats .routing
    else if block = 5 then addCat (addCat cats .clock) .routing
    else cats
  let cats := if block = 0 ∨ block = 1 ∨ block = 5 then addCat cats .control else cats
  if cats = [] then [.unknownCat] else cats

/-- Tile name rendering, `f"{tile_type}_X{x}Y{y}"`. -/
def tileName (tt : String) (x y : Nat) : String :=
  tt ++ "_X" ++ toString x ++ "Y" ++ toString y

/-- `FrameMapper._calculate_tile_range` combined with `_generate_tile_names`:
each frame covers 20 tile rows; top half starts at Y=80; the range is clamped
to 160 rows. -/
def tilesForFrame (major minor top_bottom : Nat) (cd : ColumnDescriptor) :
    (Nat × Nat) × List String :=
  let yBase := if top_bottom = 1 then 80 else 0
  let yStart := yBase + minor * 20
  let yEnd := min (yStart + 20) 160
  let names :=
    (cd.tile_types.map (fun tt =>
      (List.range (yEnd - yStart)).map (fun k => tileName tt major (yStart + k)))).flatten
  ((yStart, yEnd), names)

/-- `FrameCoverage` (the fields the detector and the claims read). -/
structure FrameCoverage where
  far_value : Nat
  block_type_id : Int
  column : Int
  minor : Int
  top_bottom : Int
  tiles_affected : List String
  y_range : Nat × Nat
  resource_categories : List ResourceCategory
  is_routing_frame : Bool
  is_logic_frame : Bool
  is_memory_frame : Bool
  is_clock_frame : Bool
  is_io_frame : Bool
  is_valid : Bool
deriving DecidableEq

/-- `FrameMapper._create_invalid_coverage`. -/
def invalidCoverage (far : Nat) : FrameCoverage :=
  { far_value := far
  , block_type_id := -1
  , column := -1
  , minor := -1
  , top_bottom := -1
  , tiles_affected := []
  , y_range := (0, 0)
  , resource_categories := [.unknownCat]
  , is_routing_frame := false
  , is_logic_frame := false
  , is_memory_frame := false
  , is_clock_frame := false
  , is_io_frame := false
  , is_valid := false }

/-- `FrameMapper.map_frame`.  The block-type-mismatch warning only affects the
`is_valid` flag and the (unmodelled) warning strings. -/
def mapFrame (far : Nat) : FrameCoverage :=
  let isValid := farValidate far
  let f := farDecode far
  match getColumnDescriptor f.major with
  | none => invalidCoverage far
  | some cd =>
    let blockMatches := cd.blockTypeForMinor f.minor = f.block_type
    let tr := tilesForFrame f.major f.minor f.top_bottom cd
    let cats := classifyResources f.block_type cd f.minor
    { far_value := far
    , block_type_id := (f.block_type : Int)
    , column := (f.major : Int)
    , minor := (f.minor : Int)
    , top_bottom := (f.top_bottom : Int)
    , tiles_affected := tr.2
    , y_range := tr.1
    , resource_categories := cats
    , is_routing_frame := .routing ∈ cats
    , is_logic_frame := .logic ∈ cats
    , is_memory_frame := .memory ∈ cats
    , is_clock_frame := .clock ∈ cats
    , is_io_frame := .ioCat ∈ cats
    , is_valid := isValid && blockMatches }

/-! ## Frame data utilities (`src/mapping/integration/frame_obj_adapter.py`,
class `FrameDataExtractor`)

Payloads entering the detector are always exactly 164 bytes: the adapter's
`_extract_frame_data` raises `ValueError` otherwise.  `extract_bit` is total
here (`getD` with default 0) where the Python indexes `frame_data[byte_index]`
for `byte_index < 164`. -/

/-- A frame payload: a list of byte values. -/
abbrev Payload := List Nat

/-- `FrameDataExtractor.extract_bit`: MSB-first within each byte. -/
def extractBit (d : Payload) (off : Nat) : Bool :=
  ((d.getD (off / 8) 0) >>> (7 - off % 8)) &&& 1 == 1

/-- `FrameDataExtractor.compare_frames`: offsets in `[0,1312)` where the two
payloads differ. -/
def compareFrames (a b : Payload) : List Nat :=
  (List.range 1312).filter (fun i => extractBit a i != extractBit b i)

/-- Population count of one byte value (bytes are `< 256` in every payload
the pipeline produces). -/
def popcountByte (b : Nat) : Nat :=
  ((List.range 8).filter (fun i => (b >>> i) &&& 1 == 1)).length

/-- `FrameDataExtractor.count_set_bits`. -/
def countSetBits (d : Payload) : Nat :=
  (d.map popcountByte).sum

/-! ## Anomaly model (`src/detector/differential/frame_anomaly.py`) -/

/-- `AnomalyType`. -/
inductive AnomalyType where
  | frameAdded
  | frameRemoved
  | frameModified
  | unusedRegionMod
  | routingChange
  | logicChange
  | clockChange
  | ioChange
deriving DecidableEq

/-- `SeverityLevel`. -/
inductive SeverityLevel where
  | critical
  | high
  | medium
  | low
  | info
deriving DecidableEq

/-- `FrameAnomaly` (identification and description strings omitted:
they are write-only). `confidence_score` is in hundredths. -/
structure FrameAnomaly where
  anomaly_type : AnomalyType
  severity : SeverityLevel
  far_value : Nat
  block_type : Nat
  column : Nat
  minor : Nat
  top_bottom : Nat
  tiles_affected : List String
  tiles_used : List String
  tiles_unused : List String
  bits_changed : Nat
  changed_bit_positions : List Nat
  is_routing_frame : Bool
  is_logic_frame : Bool
  is_clock_frame : Bool
  is_io_frame : Bool
  golden_data : Option Payload
  suspect_data : Option Payload
  attack_vectors : List String
  confidence_score : Nat
  transient : Bool
deriving DecidableEq

instance : Inhabited FrameAnomaly :=
  ⟨{ anomaly_type := .frameModified, severity := .info, far_value := 0
   , block_type := 0, column := 0, minor := 0, top_bottom := 0
   , tiles_affected := [], tiles_used := [], tiles_unused := []
   , bits_changed := 0, changed_bit_positions := []
   , is_routing_frame := false, is_logic_frame := false
   , is_clock_frame := false, is_io_frame := false
   , golden_data := none, suspect_data := none
   , attack_vectors := [], confidence_score := 0, transient := false }⟩

/-- `FrameAnomaly.is_in_unused_region`. -/
def FrameAnomaly.isInUnusedRegion (a : FrameAnomaly) : Bool :=
  a.tiles_used.length < a.tiles_unused.length

/-- The counters `AnomalyReport.add_anomaly` maintains while anomalies are
added.  NOTE (decisive for claim C1): these are updated with the severity the
anomaly carries AT THE MOMENT `add_anomaly` runs; the detector mutates
severities afterwards (`_assess_severity`) without recomputing them. -/
structure ReportCounts where
  critical_count : Nat
  high_count : Nat
  medium_count : Nat
  low_count : Nat
  total_bits_changed : Nat
  frames_with_differences : Nat
deriving DecidableEq

def emptyCounts : ReportCounts :=
  { critical_count := 0, high_count := 0, medium_count := 0, low_count := 0
  , total_bits_changed := 0, frames_with_differences := 0 }

/-- The counter updates of `AnomalyReport.add_anomaly` (the `INFO` severity is
not counted; the per-type breakdown is not modelled, no claim reads it). -/
def addAnomalyCounts (c : ReportCounts) (a : FrameAnomaly) : ReportCounts :=
  { critical_count := c.critical_count + (if a.severity = .critical then 1 else 0)
  , high_count := c.high_count + (if a.severity = .high then 1 else 0)
  , medium_count := c.medium_count + (if a.severity = .medium then 1 else 0)
  , low_count := c.low_count + (if a.severity = .low then 1 else 0)
  , total_bits_changed := c.total_bits_changed + a.bits_changed
  , frames_with_differences :=
      c.frames_with_differences + (if 0 < a.bits_changed then 1 else 0) }

/-- The finalized `AnomalyReport` (summary string and mean confidence
omitted; verdict and statistics are modelled). -/
structure Report where
  anomalies : List FrameAnomaly
  critical_count : Nat
  high_count : Nat
  medium_count : Nat
  low_count : Nat
  total_bits_changed : Nat
  frames_with_differences : Nat
  total_frames_compared : Nat
  trojan_detected : Bool
deriving DecidableEq

/-! ## Loaded bitstreams and golden baselines
(`src/mapping/integration/bitstream_loader.py`,
`src/detector/baseline/golden_baseline.py`, `baseline_builder.py`)

A `LoadedBitstream` is the ordered frame-write log; `_build_indices` derives
the last-write-per-FAR dict and the per-FAR write history from it.  A
`GoldenBaseline` is built from a loaded bitstream by
`GoldenBaselineBuilder.build_from_loaded`: its frame dict is the same
last-write index, its write history the same history with the payload bytes
extracted, plus a used-tile set; we model it by the underlying write log and
the used-tile set. -/

/-- `AdaptedFrame` (`frame_obj_adapter.py`); `far_hex`, `frame_index` and
`data_word_count` are informational and omitted. -/
structure AdaptedFrame where
  far_value : Nat
  block_type : Nat
  top_bottom : Nat
  column : Nat
  minor : Nat
  frame_data : Payload
deriving DecidableEq

instance : Inhabited AdaptedFrame := ⟨⟨0, 0, 0, 0, 0, []⟩⟩

structure LoadedBitstream where
  frames : List AdaptedFrame
deriving DecidableEq

structure GoldenBaseline where
  frames : List AdaptedFrame
  used_tiles : List String
deriving DecidableEq

/-- `LoadedBitstream._write_history[far]`: all writes to `far` in program
order. -/
def writesFor (fs : List AdaptedFrame) (far : Nat) : List AdaptedFrame :=
  fs.filter (fun f => f.far_value == far)

/-- `LoadedBitstream._frame_by_far[far]` / `GoldenBaseline._frames[far]`:
the dict entry is overwritten by each later write, so it is the last write. -/
def lastWrite (fs : List AdaptedFrame) (far : Nat) : Option AdaptedFrame :=
  (writesFor fs far).getLast?

/-- The FAR key set of a write log (dict keys in first-write order).  Python
exposes these as sets (`get_expected_frames`, `set(get_all_far_values())`)
whose iteration order is unspecified; all facts proved below are
order-insensitive. -/
def farsOf (fs : List AdaptedFrame) : List Nat :=
  (fs.map (fun f => f.far_value)).dedup

/-- `GoldenBaseline.get_write_history[far]` as set by the builder:
the payload bytes of each write. -/
def goldenHistory (g : GoldenBaseline) (far : Nat) : List Payload :=
  (writesFor g.frames far).map (fun f => f.frame_data)

/-- `GoldenBaseline.is_tile_used`. -/
def isTileUsed (g : GoldenBaseline) (t : String) : Bool :=
  g.used_tiles.contains t

/-! ## Differential detector
(`src/detector/differential/frame_differential_detector.py`) -/

/-- `suspect_fars - golden_fars` in `_detect_structural_differences`. -/
def addedFars (g : GoldenBaseline) (s : LoadedBitstream) : List Nat :=
  (farsOf s.frames).filter (fun far => !((farsOf g.frames).contains far))

/-- `golden_fars - suspect_fars`. -/
def removedFars (g : GoldenBaseline) (s : LoadedBitstream) : List Nat :=
  (farsOf g.frames).filter (fun far => !((farsOf s.frames).contains far))

/-- `golden_fars.intersection(suspect_fars)` in `_detect_data_differences`. -/
def commonFars (g : GoldenBaseline) (s : LoadedBitstream) : List Nat :=
  (farsOf g.frames).filter (fun far => (farsOf s.frames).contains far)

/-- `FrameDifferentialDetector._create_added_frame_anomaly`: unconditional
(no noise floor), tentative severity `MEDIUM`,
`bits_changed = count_set_bits(suspect payload)`. -/
def createAddedAnomaly (s : LoadedBitstream) (far : Nat) : Option FrameAnomaly :=
  match lastWrite s.frames far with
  | none => none
  | some sf =>
    let coverage := mapFrame far
    some { anomaly_type := .frameAdded
         , severity := .medium
         , far_value := far
         , block_type := sf.block_type
         , column := sf.column
         , minor := sf.minor
         , top_bottom := sf.top_bottom
         , tiles_affected := coverage.tiles_affected
         , tiles_used := []
         , tiles_unused := []
         , bits_changed := countSetBits sf.frame_data
         , changed_bit_positions := []
         , is_routing_frame := coverage.is_routing_frame
         , is_logic_frame := coverage.is_logic_frame
         , is_clock_frame := coverage.is_clock_frame
         , is_io_frame := coverage.is_io_frame
         , golden_data := none
         , suspect_data := some sf.frame_data
         , attack_vectors := []
         , confidence_score := 0
         , transient := false }

/-- `FrameDifferentialDetector._create_removed_frame_anomaly`.  The source
(line 333) passes `golden_data=reference` where no name `reference` is bound
in that function, so reaching the constructor raises
`NameError: name 'reference' is not defined`; the guard `if not golden_frame`
returns `None` first when the FAR has no golden frame. -/
def createRemovedAnomaly (g : GoldenBaseline) (far : Nat) :
    Except String (Option FrameAnomaly) :=
  match lastWrite g.frames far with
  | none => .ok none
  | some _ => .error ("NameError: name reference is not defined")

/-- `FrameDifferentialDetector._create_modified_frame_anomaly`.  `reference`
defaults to the golden frame's payload; anomalies below the 5-bit noise floor
(`min_bits_for_significance`) are dropped, transient or not. -/
def createModifiedAnomaly (gf sf : AdaptedFrame) (is_transient : Bool)
    (reference_data : Option Payload) : Option FrameAnomaly :=
  let far := gf.far_value
  let reference := reference_data.getD gf.frame_data
  let diffBits := compareFrames reference sf.frame_data
  if diffBits.length < 5 then none
  else
    let coverage := mapFrame far
    let ty : AnomalyType :=
      if coverage.is_routing_frame then .routingChange
      else if coverage.is_logic_frame then .logicChange
      else if coverage.is_clock_frame then .clockChange
      else if coverage.is_io_frame then .ioChange
      else .frameModified
    some { anomaly_type := ty
         , severity := .medium
         , far_value := far
         , block_type := gf.block_type
         , column := gf.column
         , minor := gf.minor
         , top_bottom := gf.top_bottom
         , tiles_affected := coverage.tiles_affected
         , tiles_used := []
         , tiles_unused := []
         , bits_changed := diffBits.length
         , changed_bit_positions := diffBits.take 100
         , is_routing_frame := coverage.is_routing_frame
         , is_logic_frame := coverage.is_logic_frame
         , is_clock_frame := coverage.is_clock_frame
         , is_io_frame := coverage.is_io_frame
         , golden_data := some reference
         , suspect_data := some sf.frame_data
         , attack_vectors := if is_transient then ["transient_payload"] else []
         , confidence_score := 0
         , transient := is_transient }

/-- `FrameDifferentialDetector._detect_transient_history_mismatches`:
element-wise comparison up to the common prefix, then every extra suspect
write compared against the golden frame's (final) payload.  The write-index
argument of the source only feeds description strings. -/
def transientMismatches (gf : AdaptedFrame) (sh : List AdaptedFrame)
    (gh : List Payload) : List FrameAnomaly :=
  let zipped := min sh.length gh.length
  ((List.range zipped).filterMap (fun idx =>
    let sfr := sh.getD idx default
    let expected := gh.getD idx []
    if sfr.frame_data ≠ expected then
      createModifiedAnomaly gf sfr true (some expected)
    else none))
  ++
  (if gh.length < sh.length then
    (List.range' zipped (sh.length - zipped)).filterMap (fun idx =>
      createModifiedAnomaly gf (sh.getD idx default) true (some gf.frame_data))
  else [])

/-- The Phase-2 work of `_detect_data_differences` for one common FAR. -/
def perFarData (g : GoldenBaseline) (s : LoadedBitstream) (far : Nat) :
    List FrameAnomaly :=
  match lastWrite g.frames far, lastWrite s.frames far with
  | some gf, some sf =>
    if gf.frame_data ≠ sf.frame_data then
      (createModifiedAnomaly gf sf false none).toList
    else
      let gh := goldenHistory g far
      let sh := writesFor s.frames far
      if gh ≠ [] ∧ sh ≠ [] then transientMismatches gf sh gh else []
  | _, _ => []

/-- Phase-2 anomalies (`_detect_data_differences`). -/
def dataAnomalies (g : GoldenBaseline) (s : LoadedBitstream) : List FrameAnomaly :=
  ((commonFars g s).map (perFarData g s)).flatten

/-- The added-frame anomalies of Phase 1. -/
def addedAnomalies (g : GoldenBaseline) (s : LoadedBitstream) : List FrameAnomaly :=
  (addedFars g s).filterMap (createAddedAnomaly s)

/-- `_detect_structural_differences`: added-frame anomalies, then removed
frames.  The first removed FAR that has a golden frame raises the `NameError`
of `_create_removed_frame_anomaly`, aborting `detect`. -/
def structuralResult (g : GoldenBaseline) (s : LoadedBitstream) :
    Except String (List FrameAnomaly) :=
  match (removedFars g s).find? (fun far => (lastWrite g.frames far).isSome) with
  | some _ => .error ("NameError: name reference is not defined")
  | none => .ok (addedAnomalies g s)

/-- Phase 3, `_classify_anomalies`: partition affected tiles by
`golden.is_tile_used` and retype majority-unused `FRAME_MODIFIED` anomalies. -/
def classifyAnomaly (g : GoldenBaseline) (a : FrameAnomaly) : FrameAnomaly :=
  let used := a.tiles_affected.filter (fun t => isTileUsed g t)
  let unused := a.tiles_affected.filter (fun t => !isTileUsed g t)
  let ty :=
    if used.length < unused.length ∧ a.anomaly_type = .frameModified then
      AnomalyType.unusedRegionMod
    else a.anomaly_type
  { a with tiles_used := used, tiles_unused := unused, anomaly_type := ty }

/-- The first-match severity table of `_calculate_severity`, before the
transient override (severity, confidence in hundredths, attack vectors; the
reason strings are informational). -/
def baseSeverity (a : FrameAnomaly) : SeverityLevel × Nat × List String :=
  if a.is_clock_frame then
    (.critical, 95, ["clock_manipulation", "timing_attack"])
  else if a.is_io_frame ∧ a.isInUnusedRegion then
    (.critical, 90, ["data_exfiltration", "covert_channel"])
  else if a.is_routing_frame ∧ a.isInUnusedRegion then
    if 5 ≤ a.bits_changed ∧ a.bits_changed ≤ 50 then
      (.critical, 90, ["routing_detour", "hidden_routing_trojan", "minimal_footprint_trojan"])
    else
      (.high, 85, ["routing_detour", "hidden_routing_trojan"])
  else if a.is_routing_frame ∧ 0 < a.tiles_used.length then
    (.high, 70, ["routing_detour", "path_manipulation"])
  else if a.is_logic_frame ∧ a.isInUnusedRegion then
    (.medium, 75, ["hidden_logic", "trojan_payload"])
  else if a.anomaly_type = .frameAdded then
    if a.isInUnusedRegion then (.medium, 70, ["unauthorized_configuration"])
    else (.low, 50, [])
  else if a.anomaly_type = .frameRemoved then
    (.low, 40, [])
  else (.low, 50, [])

/-- `_calculate_severity`: the base table plus the transient override
(LOW/MEDIUM bumped to HIGH, confidence raised to at least 0.80, the
`transient_payload` vector always added). -/
def calculateSeverity (a : FrameAnomaly) : SeverityLevel × Nat × List String :=
  let base := baseSeverity a
  if a.transient then
    let vecs :=
      if base.2.2.contains ("transient_payload") then base.2.2
      else base.2.2 ++ ["transient_payload"]
    if base.1 = .low ∨ base.1 = .medium then
      (.high, max base.2.1 80, vecs)
    else (base.1, base.2.1, vecs)
  else base

/-- Phase 4, `_assess_severity`: overwrite severity, confidence and attack
vectors with the table's output. -/
def assessAnomaly (a : FrameAnomaly) : FrameAnomaly :=
  let r := calculateSeverity a
  { a with severity := r.1, confidence_score := r.2.1, attack_vectors := r.2.2 }

/-- `FrameDifferentialDetector.detect`.  Anomalies are added to the report
(which accumulates the severity counters with the severities current at add
time), then Phase 3 and Phase 4 mutate the anomaly objects in place; the
counters are not recomputed, and `finalize` computes the verdict from them.
`len(golden)` is the number of distinct golden FARs (the frame dict),
`len(suspect)` the raw length of the suspect write log. -/
def detect (g : GoldenBaseline) (s : LoadedBitstream) : Except String Report :=
  match structuralResult g s with
  | .error e => .error e
  | .ok structural =>
    let anoms0 := structural ++ dataAnomalies g s
    let c := anoms0.foldl addAnomalyCounts emptyCounts
    let finalAnoms := (anoms0.map (classifyAnomaly g)).map assessAnomaly
    .ok { anomalies := finalAnoms
        , critical_count := c.critical_count
        , high_count := c.high_count
        , medium_count := c.medium_count
        , low_count := c.low_count
        , total_bits_changed := c.total_bits_changed
        , frames_with_differences := c.frames_with_differences
        , total_frames_compared := (farsOf g.frames).length + s.frames.length
        , trojan_detected := 0 < c.critical_count ∨ 3 ≤ c.high_count }

/-! ## Payload lexer (`src/parser/payload_lexer.py`)

The lexer has its own (15-column) geometry tables, distinct from the
VLX50T column table in `analysis/frame_rules.py`. -/

/-- `MajorMinors`: max minors per column (Python dict, `.get(column, -1)`
modelled with `Option`). -/
def majorMinors (column : Nat) : Option Nat :=
  match column with
  | 0 => some 36
  | 1 => some 36
  | 2 => some 36
  | 3 => some 30
  | 4 => some 36
  | 5 => some 28
  | 6 => some 36
  | 7 => some 54
  | 8 => some 36
  | 9 => some 30
  | 10 => some 36
  | 11 => some 28
  | 12 => some 36
  | 13 => some 54
  | 14 => some 36
  | _ => none

/-- `Blocks`: block code to name. -/
def blockName (code : Nat) : Option String :=
  match code with
  | 0 => some "CLB"
  | 1 => some "BRAM"
  | 3 => some "DSP"
  | 4 => some "IO"
  | _ => none

/-- `Blocks_Majors`: per-block ordered column list. -/
def blocksMajors (name : String) : List Nat :=
  if name = "CLB" then [0, 1, 2, 4, 6, 8, 10, 12, 14]
  else if name = "BRAM" then [3, 9]
  else if name = "DSP" then [5, 11]
  else if name = "IO" then [7, 13]
  else []

/-- `major_list_for_block` in `generate_frames`. -/
def majorListForBlock (code : Nat) : Option (List Nat) :=
  (blockName code).map blocksMajors

/-- `next_block_code` in `generate_frames`: scan up to 10 successor codes. -/
def nextBlockCode (code : Nat) : Option Nat :=
  ((List.range 10).map (fun k => code + 1 + k)).find?
    (fun c => (blockName c).isSome)

/-- `FrameLexer.pack_far`: `major = (top_bottom << 5) | column`,
`far = block<<29 | major<<23 | minor<<17`. -/
def packFar (block top_bottom column minor : Nat) : Nat :=
  let major := ((top_bottom &&& 0x1) <<< 5) ||| (column &&& 0x1F)
  ((block &&& 0x7) <<< 29) ||| ((major &&& 0x3F) <<< 23) ||| ((minor &&& 0x3F) <<< 17)

/-- The fields `interpret_far` returns
(`[block, top_bottom, column, major, minor]`). -/
structure LexFar where
  block : Nat
  top_bottom : Nat
  column : Nat
  major : Nat
  minor : Nat
deriving DecidableEq

/-- Big-endian byte list to integer (`int.from_bytes(b, 'big')`). -/
def wordToNat (b : List Nat) : Nat :=
  b.foldl (fun acc x => acc * 256 + x) 0

/-- `FrameLexer.interpret_far` on a byte string. -/
def interpretFar (far : List Nat) : LexFar :=
  let v := wordToNat far
  let block := (v >>> 29) &&& 0x7
  let major := (v >>> 23) &&& 0x3F
  { block := block
  , top_bottom := (major >>> 5) &&& 0x1
  , column := major &&& 0x1F
  , major := major
  , minor := (v >>> 17) &&& 0x3F }

/-- A frame emitted by the column walker (`FrameObj`; `far_raw` is kept as
the packed integer, the Python stores its hex rendering). -/
structure FrameObj where
  far_raw : Nat
  block_type : Nat
  top_bottom : Nat
  column : Nat
  major : Nat
  minor : Nat
  data_words : List (List Nat)
  idx : Nat
deriving DecidableEq

/-- Mutable state of the `generate_frames` loop. -/
structure WalkState where
  block : Nat
  top_bottom : Nat
  column : Nat
  minor : Nat
  majorList : List Nat
  majIdx : Nat
deriving DecidableEq

/-- One pass of the `generate_frames` while-loop: emit a frame for the
current state, then advance `(minor, column, block, top_bottom)`.  Faithful
transcription of the loop body in `payload_lexer.py` lines 280-331. -/
def walkLoop (payloadFrames : List (List (List Nat))) (startIdx : Nat) :
    Nat → WalkState → Nat → List FrameObj → Except String (List FrameObj)
  | 0, _, created, acc =>
      if created = (payloadFrames).length then .ok acc
      else .error ("Could not generate requied frames")
  | fuel + 1, st, created, acc =>
      if created < payloadFrames.length then
        let farInt := packFar st.block st.top_bottom st.column st.minor
        let chunk := payloadFrames.getD created []
        let major := ((st.top_bottom <<< 5) ||| (st.column &&& 0x1F))
        let frame : FrameObj :=
          { far_raw := farInt, block_type := st.block, top_bottom := st.top_bottom
          , column := st.column, major := major, minor := st.minor
          , data_words := chunk, idx := startIdx + created }
        let acc := acc ++ [frame]
        let created := created + 1
        let nextMinor := st.minor + 1
        match majorMinors st.column with
        | none => .error ("Unknows max minor for column")
        | some maxM =>
          if nextMinor < maxM then
            walkLoop payloadFrames startIdx fuel { st with minor := nextMinor } created acc
          else
            let st := { st with minor := 0 }
            let majIdx := st.majIdx + 1
            if hm : majIdx < st.majorList.length then
              walkLoop payloadFrames startIdx fuel
                { st with majIdx := majIdx, column := st.majorList.get ⟨majIdx, hm⟩ }
                created acc
            else
              match nextBlockCode st.block with
              | none =>
                let tb := st.top_bottom ^^^ 1
                let block := 0
                let majorList := blocksMajors "CLB"
                walkLoop payloadFrames startIdx fuel
                  { block := block, top_bottom := tb, column := majorList.getD 0 0
                  , minor := 0, majorList := majorList, majIdx := 0 } created acc
              | some nextBlock =>
                match majorListForBlock nextBlock with
                | none => .error ("No major list for block")
                | some majorList =>
                  walkLoop payloadFrames startIdx fuel
                    { block := nextBlock, top_bottom := st.top_bottom
                    , column := majorList.getD 0 0, minor := 0
                    , majorList := majorList, majIdx := 0 } created acc
      else .ok acc

/-- `FrameLexer.generate_frames`: initialize the walker state then run the
bounded loop (`max_iter = 4*N + 1000`).  Returns the frames it appended to
`self.result` (the Python returns the count and appends in place). -/
def generateFrames (startFields : LexFar) (payloadFrames : List (List (List Nat)))
    (startIdx : Nat) : Except String (List FrameObj) :=
  match majorListForBlock startFields.block with
  | none => .error ("Unknows starting block code")
  | some majorList =>
    let idxCol :=
      match majorList.indexOf? startFields.column with
      | some i => (i, startFields.column)
      | none => (0, majorList.getD 0 0)
    let st : WalkState :=
      { block := startFields.block, top_bottom := startFields.top_bottom
      , column := idxCol.2, minor := startFields.minor
      , majorList := majorList, majIdx := idxCol.1 }
    walkLoop payloadFrames startIdx (payloadFrames.length * 4 + 1000) st 0 []

/-! ### Packet lexing (`do_lexing` / `lexer`) -/

/-- Packets produced by `do_lexing`.  `far` keeps the raw value bytes
(`None` when the stream was exhausted); `fdri` keeps the payload grouped into
41-word chunks. -/
inductive LexPacket where
  | farPkt (op regAddress wordCount : Nat) (value : Option (List Nat))
  | fdriPkt (op wordCount : Nat) (payload : List (List (List Nat)))
deriving DecidableEq

/-- Lexer state (`self.payload`, `self.pos`, `self.last_far`,
`self.result`; the token list is informational). -/
structure LexState where
  payload : List Nat
  pos : Nat
  last_far : Option LexFar
  result : List FrameObj
deriving DecidableEq

/-- `FrameLexer.advance` (and `nextPacket`): return the next `width` bytes
and advance, or `none` without advancing. -/
def lexAdvance (st : LexState) (width : Nat) : Option (List Nat) × LexState :=
  if st.pos + width ≤ st.payload.length then
    (some ((st.payload.drop st.pos).take width), { st with pos := st.pos + width })
  else (none, st)

/-- Group a list into chunks of `n` (the FDRI 41-word frame grouping). -/
def chunkList (n : Nat) (l : List (List Nat)) : List (List (List Nat)) :=
  if _h : 0 < n ∧ 0 < l.length then
    l.take n :: chunkList n (l.drop n)
  else []
termination_by l.length
decreasing_by simp_all

/-- The FDRI body read loop: `word_count` attempts of `nextPacket(4)`,
stopping at the first failure.  Reads `min wc ((len-pos)/4)` words. -/
def readWords (st : LexState) (wc : Nat) : List (List Nat) × LexState :=
  match wc with
  | 0 => ([], st)
  | n + 1 =>
    match lexAdvance st 4 with
    | (none, st1) => ([], st1)
    | (some w, st1) =>
      let r := readWords st1 n
      (w :: r.1, r.2)

/-- `FrameLexer.do_lexing` on a 4-byte packet: recognize Type-1 WRITE with
`word_count = 1` (any register address) as a FAR write, and Type-2 packets as
FDRI. -/
def doLexing (st : LexState) (packet : List Nat) : Option LexPacket × LexState :=
  if packet.length < 4 then (none, st)
  else
    let hdr := wordToNat packet
    let ty := (hdr >>> 29) &&& 0x7
    let op := (hdr >>> 27) &&& 0x3
    if ty = 1 then
      let regAddress := (hdr >>> 13) &&& 0xFFFF
      let wordCount := hdr &&& 0x1FFF
      if op = 2 ∧ wordCount = 1 then
        let r := lexAdvance st 4
        (some (.farPkt op regAddress wordCount r.1), r.2)
      else (none, st)
    else if ty = 2 then
      let wordCount := hdr &&& 0x1FFFFFF
      let r := readWords st wordCount
      (some (.fdriPkt op wordCount (chunkList 41 r.1)), r.2)
    else (none, st)

/-- One iteration of the `FrameLexer.lexer` while-loop: read a packet word,
lex it, and on a FAR packet update `last_far` (raising if the value bytes ran
out, as `interpret_far(None)` does); on an FDRI packet run the column walker
from `last_far` (raising if there was none).  When fewer than 4 bytes remain
the loop would not run; the state is returned unchanged. -/
def lexerIter (st : LexState) : Except String LexState :=
  match lexAdvance st 4 with
  | (none, _) => .ok st
  | (some packet, st1) =>
    let r := doLexing st1 packet
    match r.1 with
    | none => .ok r.2
    | some (.farPkt _ _ _ value) =>
      match value with
      | none => .error ("interpreter_far received None as FAR Value.")
      | some v => .ok { r.2 with last_far := some (interpretFar v) }
    | some (.fdriPkt _ _ chunks) =>
      match r.2.last_far with
      | none => .error ("FDRI encountered before any FAR (Bitstream malformed.)")
      | some lf =>
        match generateFrames lf chunks r.2.result.length with
        | .error e => .error e
        | .ok frames => .ok { r.2 with result := r.2.result ++ frames }

/-! ## Claim C3 — FAR codec round trip

The source's field constants make `major` occupy bits `[22:17]` (6 bits) while
`top_bottom` is bit `[22]`: the two fields overlap in bit 22.  Encoding ORs
them together, so decoding recovers `top_bottom` as
`top_bottom OR major.bit5` and `major` as `major OR (top_bottom << 5)`.  The
round trip therefore fails whenever `top_bottom ≠ major >>> 5`, and holds
exactly when `top_bottom = major >>> 5`. -/

/-- Claim C3, counterexample: the legal field tuple
`(block_type, top_bottom, major, minor) = (0, 1, 1, 0)` (block_type ≤ 7,
top_bottom ∈ {0,1}, major ≤ 47, minor < frames_per_column(1) = 36) does not
round-trip through `FrameAddress.encode` / `FrameAddress.decode`: the decoded
major is 33, not 1. -/
theorem C3_roundtrip_counterexample :
    (0 : Nat) ≤ 7 ∧ (1 : Nat) ≤ 1 ∧ (1 : Nat) ≤ 47 ∧ 0 < framesPerColumn 1 ∧
    farDecode (farEncode 0 1 1 0) ≠ ⟨0, 1, 1, 0⟩ ∧
    (farDecode (farEncode 0 1 1 0)).major = 33 := by decide

/-- Claim C3, amended: the FAR codec round trip
`decode (encode block top_bottom major minor) = (block, top_bottom, major, minor)`
holds for every legal field tuple (block ≤ 7, major ≤ 47,
minor < frames_per_column(major)) whose `top_bottom` equals bit 5 of `major`
(`top_bottom = major >>> 5`, i.e. `top_bottom = 0` for `major < 32` and `1`
for `32 ≤ major ≤ 47`); the constraint is forced by the overlap of the
`top_bottom` bit with the 6-bit `major` field. -/
theorem C3_roundtrip_amended :
    ∀ b < 8, ∀ maj < 48, ∀ mnr < framesPerColumn maj,
      farDecode (farEncode b (maj >>> 5) maj mnr) = ⟨b, maj >>> 5, maj, mnr⟩ := by
  decide

/-- Witness for `C3_roundtrip_amended` at `(0, 33 >>> 5, 33, 5)`. -/
theorem C3_roundtrip_amended_witness :
    (0 : Nat) < 8 ∧ (33 : Nat) < 48 ∧ 5 < framesPerColumn 33 ∧
    farDecode (farEncode 0 (33 >>> 5) 33 5) = ⟨0, 33 >>> 5, 33, 5⟩ :=
  ⟨by decide, by decide, by decide,
   C3_roundtrip_amended 0 (by decide) 33 (by decide) 5 (by decide)⟩

/-! ## Claim C4 — the FDRI column walker's frames-per-column table

The lexer's `generate_frames` advances minors against its own `MajorMinors`
table (15 columns: 36, 36, 36, 30, 36, 28, 36, 54, 36, 30, 36, 28, 36, 54,
36), not against the authoritative VLX50T column table of
`analysis/frame_rules.py` (54 frames for IOB columns 0 and 47, 4 for CLK
columns 23-24, 92 for BRAM columns, 36 for CLB columns). -/

/-- Claim C4, counterexample: start the walker at
`(block = CLB(0), top_bottom = 0, column = 0, minor = 35)` with two payload
chunks.  The authoritative table gives `frames_per_column(0) = 54`, so
under the claim the walker would continue in column 0 with minor 36; the code
instead wraps (its own table caps column 0 at 36 minors) and emits the second
frame at `(column 1, minor 0)`. -/
theorem C4_walker_counterexample :
    (generateFrames ⟨0, 0, 0, 0, 35⟩ [[], []] 0).map
        (fun l => l.map (fun f => (f.column, f.minor)))
      = .ok [(0, 35), (1, 0)] ∧
    35 + 1 < framesPerColumn 0 :=
  ⟨rfl, by decide⟩

/-- Auxiliary statement for claim C4: the two-chunk walker behaviour at one
state, with all side conditions gathered on the left of each implication (the
shape keeps the proposition decidable). -/
def c4Inner (block tb column minor : Nat) : Prop :=
  ((majorListForBlock block).isSome = true ∧
   column ∈ (majorListForBlock block).getD [] ∧
   minor < (majorMinors column).getD 0 ∧
   minor + 1 < (majorMinors column).getD 0 →
    (generateFrames ⟨block, tb, column, 0, minor⟩ [[], []] 0).map
        (fun l => l.map (fun f => (f.column, f.minor)))
      = .ok [(column, minor), (column, minor + 1)]) ∧
  ((majorListForBlock block).isSome = true ∧
   column ∈ (majorListForBlock block).getD [] ∧
   minor < (majorMinors column).getD 0 ∧
   (majorMinors column).getD 0 ≤ minor + 1 ∧
   ((majorListForBlock block).getD []).indexOf column + 1
        < ((majorListForBlock block).getD []).length →
    (generateFrames ⟨block, tb, column, 0, minor⟩ [[], []] 0).map
        (fun l => l.map (fun f => (f.column, f.minor)))
      = .ok [(column, minor),
             (((majorListForBlock block).getD []).getD
                (((majorListForBlock block).getD []).indexOf column + 1) 0, 0)]) ∧
  ((majorMinors column).isSome = true → (majorMinors column).getD 0 ≤ 54)

instance c4InnerDec (block tb column minor : Nat) :
    Decidable (c4Inner block tb column minor) := by
  unfold c4Inner; infer_instance

/-- Exhaustive check of `c4Inner` over the lexer's whole geometry (block
codes, columns 0-14, minors up to the table maximum 54). -/
theorem c4All :
    ∀ block < 5, ∀ tb < 2, ∀ column < 15, ∀ minor < 54,
      c4Inner block tb column minor := by
  decide

/-- Claim C4, amended: the column walker keeps incrementing `minor` within
the current column exactly while the incremented minor is below the lexer's
own `MajorMinors` table entry for the column (36, 36, 36, 30, 36, 28, 36, 54,
36, 30, 36, 28, 36, 54, 36 for columns 0-14 — NOT the authoritative VLX50T
column table), and only then wraps `minor` to 0 and advances to the next
column of the same block (the next entry of `Blocks_Majors` for the block).
Stated on a two-chunk FDRI expansion from any walker state whose column
belongs to the block's column list: the second emitted frame stays in the
column with `minor + 1` when `minor + 1 < MajorMinors[column]`, and otherwise
moves to the block's next column with minor 0 (when such a column exists). -/
theorem C4_walker_amended (block tb column minor : Nat)
    (hb : block < 5) (ht : tb < 2) (hc : column < 15)
    (hsome : (majorListForBlock block).isSome = true)
    (hmem : column ∈ (majorListForBlock block).getD [])
    (hlt : minor < (majorMinors column).getD 0) :
    (minor + 1 < (majorMinors column).getD 0 →
      (generateFrames ⟨block, tb, column, 0, minor⟩ [[], []] 0).map
          (fun l => l.map (fun f => (f.column, f.minor)))
        = .ok [(column, minor), (column, minor + 1)]) ∧
    ((majorMinors column).getD 0 ≤ minor + 1 →
      ((majorListForBlock block).getD []).indexOf column + 1
          < ((majorListForBlock block).getD []).length →
      (generateFrames ⟨block, tb, column, 0, minor⟩ [[], []] 0).map
          (fun l => l.map (fun f => (f.column, f.minor)))
        = .ok [(column, minor),
               (((majorListForBlock block).getD []).getD
                  (((majorListForBlock block).getD []).indexOf column + 1) 0, 0)]) := by
  have hmm : (majorMinors column).isSome = true := by
    interval_cases column <;> decide
  have h54 : (majorMinors column).getD 0 ≤ 54 :=
    (c4All block hb tb ht column hc 0 (by omega)).2.2 hmm
  have hm54 : minor < 54 := by omega
  exact ⟨fun h4 => (c4All block hb tb ht column hc minor hm54).1 ⟨hsome, hmem, hlt, h4⟩,
         fun h4 h5 => (c4All block hb tb ht column hc minor hm54).2.1 ⟨hsome, hmem, hlt, h4, h5⟩⟩

/-- Witness for `C4_walker_amended` at CLB block, column 0, minor 10: the
second frame continues in column 0 at minor 11. -/
theorem C4_walker_amended_witness :
    (0 : Nat) < 5 ∧ (0 : Nat) < 2 ∧ (0 : Nat) < 15 ∧
    (majorListForBlock 0).isSome = true ∧ 0 ∈ (majorListForBlock 0).getD [] ∧
    (10 : Nat) < (majorMinors 0).getD 0 ∧ 10 + 1 < (majorMinors 0).getD 0 ∧
    (generateFrames ⟨0, 0, 0, 0, 10⟩ [[], []] 0).map
        (fun l => l.map (fun f => (f.column, f.minor)))
      = .ok [(0, 10), (0, 11)] :=
  ⟨by decide, by decide, by decide, by decide, by decide, by decide, by decide,
   (C4_walker_amended 0 0 0 10 (by decide) (by decide) (by decide) (by decide)
      (by decide) (by decide)).1 (by decide)⟩

/-! ## Claim C5 — forward mapper resource categories

`_classify_resources` seeds the category set from the block-type properties
(`contains_routing` / `contains_logic`) BEFORE the per-block branch runs.
For CLB both properties are true, so every CLB frame gets ROUTING and LOGIC
regardless of its minor, and the per-block branch adds nothing new; for
BRAM_CONTENT `contains_logic` is true, so content frames get LOGIC next to
MEMORY.  The IOB / BRAM_INT / CLK rows of the spec's matrix do hold. -/

theorem classifyResources_clb (cd : ColumnDescriptor) (minor : Nat) :
    classifyResources 0 cd minor = [.routing, .logic, .control] := by
  unfold classifyResources
  cases h : cd.isRoutingFrame minor <;> rfl

theorem classifyResources_iob (cd : ColumnDescriptor) (minor : Nat) :
    classifyResources 1 cd minor = [.routing, .ioCat, .control] := rfl

theorem classifyResources_bramContent (cd : ColumnDescriptor) (minor : Nat) :
    classifyResources 2 cd minor = [.logic, .memory] := rfl

theorem classifyResources_bramInt (cd : ColumnDescriptor) (minor : Nat) :
    classifyResources 3 cd minor = [.routing] := rfl

theorem classifyResources_clk (cd : ColumnDescriptor) (minor : Nat) :
    classifyResources 5 cd minor = [.routing, .clock, .control] := rfl

/-- A valid FAR decodes to a major below 48. -/
theorem validate_major_lt (far : Nat) (h : farValidate far = true) :
    (farDecode far).major < 48 := by
  unfold farValidate at h
  by_contra hc
  simp only [not_lt] at hc
  have : 47 < (farDecode far).major := by omega
  simp [this] at h

/-- For a major below 48 the mapper's categories come from
`_classify_resources` on the column's descriptor. -/
theorem mapFrame_categories (far : Nat) (h : (farDecode far).major < 48) :
    (mapFrame far).resource_categories =
      classifyResources (farDecode far).block_type
        { column_index := (farDecode far).major
        , column_type := getColumnType (farDecode far).major
        , tile_types := tileTypesInColumn (farDecode far).major
        , frames_per_column := framesPerColumn (farDecode far).major
        , routing_frame_count := routingFramesCount (farDecode far).major
        , logic_frame_count := logicFramesCount (farDecode far).major
        , block_type_default := blockTypeDefaultFor (getColumnType (farDecode far).major) }
        (farDecode far).minor := by
  unfold mapFrame getColumnDescriptor
  simp [h]

/-- Claim C5, counterexample.  `far = 131097` decodes to a valid CLB frame in
column 1 at minor 25 — a logic minor (`routing_frames(1) = 22 ≤ 25`) — yet
its `resource_categories` contain `Routing` (the full set is
{Routing, Logic, Control}), so the frame IS classified as a routing frame,
against the claim's `{Logic, Control}` row.  Likewise `far = 17301534`, a
valid BRAM_CONTENT frame (column 4, minor 30), has categories containing
`Logic` next to `Memory`, against the claim's `{Memory}` row. -/
theorem C5_categories_counterexample :
    farValidate 131097 = true ∧
    (farDecode 131097).block_type = 0 ∧
    routingFramesCount (farDecode 131097).major ≤ (farDecode 131097).minor ∧
    ResourceCategory.routing ∈ (mapFrame 131097).resource_categories ∧
    (mapFrame 131097).is_routing_frame = true ∧
    farValidate 17301534 = true ∧
    (farDecode 17301534).block_type = 2 ∧
    ResourceCategory.logic ∈ (mapFrame 17301534).resource_categories ∧
    (mapFrame 17301534).is_logic_frame = true := by
  decide

/-- Claim C5, amended: for every valid FAR the forward mapper's
`resource_categories` are, by decoded block type:
CLB (0) — exactly {Routing, Logic, Control} for routing AND logic minors
alike; IOB (1) — exactly {IO, Routing, Control}; BRAM_CONTENT (2) — exactly
{Memory, Logic}; BRAM_INT (3) — exactly {Routing}; CLK (5) — exactly
{Clock, Routing, Control}.  (The claim's matrix holds for IOB, BRAM_INT and
CLK; a CLB frame is always also a routing and a logic frame, and a
BRAM_CONTENT frame is also a logic frame.) -/
theorem C5_categories_amended (far : Nat) (hv : farValidate far = true) :
    ((farDecode far).block_type = 0 →
      ∀ c, c ∈ (mapFrame far).resource_categories ↔
        c ∈ [ResourceCategory.routing, .logic, .control]) ∧
    ((farDecode far).block_type = 1 →
      ∀ c, c ∈ (mapFrame far).resource_categories ↔
        c ∈ [ResourceCategory.routing, .ioCat, .control]) ∧
    ((farDecode far).block_type = 2 →
      ∀ c, c ∈ (mapFrame far).resource_categories ↔
        c ∈ [ResourceCategory.logic, .memory]) ∧
    ((farDecode far).block_type = 3 →
      ∀ c, c ∈ (mapFrame far).resource_categories ↔
        c ∈ [ResourceCategory.routing]) ∧
    ((farDecode far).block_type = 5 →
      ∀ c, c ∈ (mapFrame far).resource_categories ↔
        c ∈ [ResourceCategory.routing, .clock, .control]) := by
  have hmaj := validate_major_lt far hv
  have hcats := mapFrame_categories far hmaj
  refine ⟨fun hb c => ?_, fun hb c => ?_, fun hb c => ?_, fun hb c => ?_, fun hb c => ?_⟩ <;>
    rw [hcats, hb]
  · rw [classifyResources_clb]
  · rw [classifyResources_iob]
  · rw [classifyResources_bramContent]
  · rw [classifyResources_bramInt]
  · rw [classifyResources_clk]

/-- Witness for `C5_categories_amended` at the CLB logic frame `131097`. -/
theorem C5_categories_amended_witness :
    farValidate 131097 = true ∧
    (∀ c, c ∈ (mapFrame 131097).resource_categories ↔
      c ∈ [ResourceCategory.routing, .logic, .control]) :=
  ⟨by decide, fun c => (C5_categories_amended 131097 (by decide)).1 (by decide) c⟩

/-! ## Detector plumbing lemmas -/

theorem mem_farsOf {fs : List AdaptedFrame} {far : Nat} :
    far ∈ farsOf fs ↔ ∃ f ∈ fs, f.far_value = far := by
  simp [farsOf, List.mem_dedup, List.mem_map]

theorem farsOf_nodup (fs : List AdaptedFrame) : (farsOf fs).Nodup :=
  List.nodup_dedup _

theorem lastWrite_far_value {fs : List AdaptedFrame} {far : Nat} {f : AdaptedFrame}
    (h : lastWrite fs far = some f) : f.far_value = far := by
  have hm : f ∈ writesFor fs far := List.mem_of_mem_getLast? h
  have := (List.mem_filter.mp hm).2
  simpa using this

theorem writesFor_ne_nil {fs : List AdaptedFrame} {far : Nat}
    (h : far ∈ farsOf fs) : writesFor fs far ≠ [] := by
  obtain ⟨f, hf, he⟩ := mem_farsOf.mp h
  intro hnil
  have : f ∈ writesFor fs far := List.mem_filter.mpr ⟨hf, by simp [he]⟩
  rw [hnil] at this
  simp at this

theorem lastWrite_isSome_of_mem {fs : List AdaptedFrame} {far : Nat}
    (h : far ∈ farsOf fs) : (lastWrite fs far).isSome = true := by
  unfold lastWrite
  exact List.getLast?_isSome.mpr (writesFor_ne_nil h)

theorem compareFrames_self (a : Payload) : compareFrames a a = [] := by
  unfold compareFrames
  apply List.filter_eq_nil_iff.mpr
  intro i _
  simp

theorem frame_data_ne_of_compareFrames {a b : Payload}
    (h : compareFrames a b ≠ []) : a ≠ b := by
  intro he
  rw [he, compareFrames_self] at h
  exact h rfl

theorem structuralResult_ok {g : GoldenBaseline} {s : LoadedBitstream}
    {l : List FrameAnomaly} (h : structuralResult g s = .ok l) :
    l = addedAnomalies g s := by
  unfold structuralResult at h
  cases hf : (removedFars g s).find? (fun far => (lastWrite g.frames far).isSome) with
  | some x => rw [hf] at h; cases h
  | none => rw [hf] at h; cases h; rfl

theorem detect_ok_anomalies {g : GoldenBaseline} {s : LoadedBitstream} {r : Report}
    (h : detect g s = .ok r) :
    r.anomalies =
      ((addedAnomalies g s ++ dataAnomalies g s).map (classifyAnomaly g)).map
        assessAnomaly := by
  unfold detect at h
  cases hs : structuralResult g s with
  | error e => rw [hs] at h; cases h
  | ok structural =>
    rw [hs] at h
    cases h
    rw [structuralResult_ok hs]

/-- Field preservation through Phase 3 and Phase 4 (the record updates leave
these fields untouched). -/
theorem classify_assess_far_value (g : GoldenBaseline) (a : FrameAnomaly) :
    (assessAnomaly (classifyAnomaly g a)).far_value = a.far_value := rfl

theorem classify_assess_transient (g : GoldenBaseline) (a : FrameAnomaly) :
    (assessAnomaly (classifyAnomaly g a)).transient = a.transient := rfl

theorem classify_assess_bits (g : GoldenBaseline) (a : FrameAnomaly) :
    (assessAnomaly (classifyAnomaly g a)).bits_changed = a.bits_changed := rfl

theorem classify_type_not_modified (g : GoldenBaseline) (a : FrameAnomaly)
    (h : a.anomaly_type ≠ .frameModified) :
    (classifyAnomaly g a).anomaly_type = a.anomaly_type := by
  simp only [classifyAnomaly]
  split
  · rename_i hc
    exact absurd hc.2 h
  · rfl

theorem assess_type (a : FrameAnomaly) :
    (assessAnomaly a).anomaly_type = a.anomaly_type := rfl

theorem assess_severity_eq (a : FrameAnomaly) :
    (assessAnomaly a).severity = (calculateSeverity a).1 := rfl

/-- The first-match table never returns INFO. -/
theorem baseSeverity_cases (a : FrameAnomaly) :
    (baseSeverity a).1 = .critical ∨ (baseSeverity a).1 = .high ∨
    (baseSeverity a).1 = .medium ∨ (baseSeverity a).1 = .low := by
  unfold baseSeverity
  repeat' split
  all_goals simp

/-- Transient override: a transient anomaly's assessed severity is HIGH or
CRITICAL (LOW/MEDIUM are bumped to HIGH; CRITICAL and HIGH are preserved). -/
theorem calculateSeverity_transient (a : FrameAnomaly) (h : a.transient = true) :
    (calculateSeverity a).1 = .high ∨ (calculateSeverity a).1 = .critical := by
  unfold calculateSeverity
  rw [h]
  simp only [if_true]
  split
  · left; rfl
  · rename_i hcond
    rcases baseSeverity_cases a with h1 | h1 | h1 | h1
    · right; exact h1
    · left; exact h1
    · exact absurd (Or.inr h1) hcond
    · exact absurd (Or.inl h1) hcond

/-! ## Claim C8 — detector idempotence on equal inputs

A golden baseline built (via `GoldenBaselineBuilder.build_from_loaded`) from
the same frame-write log as the suspect has identical FAR sets, per-FAR
payloads, and per-FAR write histories; `detect` must find nothing. -/

theorem filter_not_contains_self (l : List Nat) :
    l.filter (fun x => !(l.contains x)) = [] := by
  apply List.filter_eq_nil_iff.mpr
  intro a ha
  simp [List.elem_iff, ha]

theorem getD_map_frame_data (sh : List AdaptedFrame) (idx : Nat)
    (h : idx < sh.length) :
    (sh.map (fun f => f.frame_data)).getD idx [] =
      (sh.getD idx default).frame_data := by
  rw [List.getD_eq_getElem?_getD, List.getD_eq_getElem?_getD, List.getElem?_map,
    List.getElem?_eq_getElem h]
  simp

theorem transientMismatches_self (gf : AdaptedFrame) (sh : List AdaptedFrame) :
    transientMismatches gf sh (sh.map (fun f => f.frame_data)) = [] := by
  simp only [transientMismatches, List.length_map, Nat.min_self,
    lt_self_iff_false, if_false, List.append_nil]
  apply List.filterMap_eq_nil_iff.mpr
  intro idx hidx
  have h : idx < sh.length := List.mem_range.mp hidx
  rw [getD_map_frame_data sh idx h]
  simp

theorem perFarData_self (fs : List AdaptedFrame) (u : List String) (far : Nat) :
    perFarData ⟨fs, u⟩ ⟨fs⟩ far = [] := by
  show (match lastWrite fs far, lastWrite fs far with
    | some gf, some sf =>
      if gf.frame_data ≠ sf.frame_data then
        (createModifiedAnomaly gf sf false none).toList
      else
        let gh := goldenHistory ⟨fs, u⟩ far
        let sh := writesFor fs far
        if gh ≠ [] ∧ sh ≠ [] then transientMismatches gf sh gh else []
    | _, _ => ([] : List FrameAnomaly)) = []
  cases hlw : lastWrite fs far with
  | none => rfl
  | some gf =>
    simp only
    rw [if_neg (by simp)]
    show (if goldenHistory ⟨fs, u⟩ far ≠ [] ∧ writesFor fs far ≠ [] then
      transientMismatches gf (writesFor fs far) (goldenHistory ⟨fs, u⟩ far)
      else []) = []
    split
    · exact transientMismatches_self gf (writesFor fs far)
    · rfl

theorem dataAnomalies_self (fs : List AdaptedFrame) (u : List String) :
    dataAnomalies ⟨fs, u⟩ ⟨fs⟩ = [] := by
  unfold dataAnomalies
  apply List.flatten_eq_nil_iff.mpr
  intro l hl
  obtain ⟨far, hfar, hfl⟩ := List.mem_map.mp hl
  rw [← hfl]
  exact perFarData_self fs u far

/-- Claim C8 (confirmed): when the golden baseline is built from the same
frame-write log as the suspect bitstream — so FAR sets, effective per-FAR
payloads and per-FAR write histories coincide — `detect` returns a report
with zero anomalies, `trojan_detected = false` and `total_bits_changed = 0`
(and all severity counters zero), for every write log and used-tile set. -/
theorem C8_detect_idempotent (fs : List AdaptedFrame) (u : List String) :
    detect ⟨fs, u⟩ ⟨fs⟩ =
      .ok { anomalies := []
          , critical_count := 0, high_count := 0, medium_count := 0
          , low_count := 0
          , total_bits_changed := 0, frames_with_differences := 0
          , total_frames_compared := (farsOf fs).length + fs.length
          , trojan_detected := false } := by
  have hrem : removedFars ⟨fs, u⟩ ⟨fs⟩ = [] := filter_not_contains_self _
  have hadd : addedFars ⟨fs, u⟩ ⟨fs⟩ = [] := filter_not_contains_self _
  have haddedAnoms : addedAnomalies ⟨fs, u⟩ ⟨fs⟩ = [] := by
    unfold addedAnomalies; rw [hadd]; rfl
  have hstruct : structuralResult ⟨fs, u⟩ ⟨fs⟩ = .ok [] := by
    unfold structuralResult; rw [hrem]; simp [haddedAnoms]
  unfold detect
  rw [hstruct]
  simp [dataAnomalies_self fs u, emptyCounts]

/-! ## Per-FAR anomaly accounting -/

theorem createModified_fields {gf sf : AdaptedFrame} {t : Bool}
    {rd : Option Payload} {a : FrameAnomaly}
    (h : createModifiedAnomaly gf sf t rd = some a) :
    a.far_value = gf.far_value ∧ a.transient = t := by
  simp only [createModifiedAnomaly] at h
  by_cases hc : (compareFrames (rd.getD gf.frame_data) sf.frame_data).length < 5
  · rw [if_pos hc] at h
    cases h
  · rw [if_neg hc] at h
    injection h with h2
    rw [← h2]
    exact ⟨rfl, rfl⟩

theorem transientMismatches_fields {gf : AdaptedFrame} {sh : List AdaptedFrame}
    {gh : List Payload} {a : FrameAnomaly}
    (h : a ∈ transientMismatches gf sh gh) :
    a.far_value = gf.far_value ∧ a.transient = true := by
  simp only [transientMismatches] at h
  rcases List.mem_append.mp h with h1 | h1
  · obtain ⟨idx, _, hf⟩ := List.mem_filterMap.mp h1
    split at hf
    · exact createModified_fields hf
    · cases hf
  · split at h1
    · obtain ⟨idx, _, hf⟩ := List.mem_filterMap.mp h1
      exact createModified_fields hf
    · simp at h1

theorem perFarData_far_value {g : GoldenBaseline} {s : LoadedBitstream}
    {far : Nat} {a : FrameAnomaly} (h : a ∈ perFarData g s far) :
    a.far_value = far := by
  unfold perFarData at h
  cases hg : lastWrite g.frames far with
  | none => rw [hg] at h; simp at h
  | some gf =>
    cases hs : lastWrite s.frames far with
    | none => rw [hg, hs] at h; simp at h
    | some sf =>
      rw [hg, hs] at h
      have hgf := lastWrite_far_value hg
      simp only at h
      split at h
      · cases hcm : createModifiedAnomaly gf sf false none with
        | none => rw [hcm] at h; simp at h
        | some a0 =>
          rw [hcm] at h
          simp only [Option.toList_some, List.mem_singleton] at h
          subst h
          rw [(createModified_fields hcm).1, hgf]
      · split at h
        · rw [(transientMismatches_fields h).1, hgf]
        · simp at h

theorem addedAnomalies_far {g : GoldenBaseline} {s : LoadedBitstream}
    {a : FrameAnomaly} (h : a ∈ addedAnomalies g s) :
    a.far_value ∈ addedFars g s := by
  obtain ⟨far, hfar, hc⟩ := List.mem_filterMap.mp h
  unfold createAddedAnomaly at hc
  cases hl : lastWrite s.frames far with
  | none => rw [hl] at hc; cases hc
  | some sf =>
    rw [hl] at hc
    cases hc
    exact hfar

theorem commonFars_mem {g : GoldenBaseline} {s : LoadedBitstream} {far : Nat}
    (h : far ∈ commonFars g s) :
    far ∈ farsOf g.frames ∧ far ∈ farsOf s.frames := by
  have hm := List.mem_filter.mp h
  exact ⟨hm.1, by simpa [List.elem_iff] using hm.2⟩

theorem commonFars_nodup (g : GoldenBaseline) (s : LoadedBitstream) :
    (commonFars g s).Nodup :=
  List.Nodup.filter _ (farsOf_nodup _)

theorem addedFars_not_golden {g : GoldenBaseline} {s : LoadedBitstream}
    {far : Nat} (h : far ∈ addedFars g s) : far ∉ farsOf g.frames := by
  have hm := List.mem_filter.mp h
  intro hmem
  simp [List.elem_iff, hmem] at hm

theorem countP_flatten_far (g : GoldenBaseline) (s : LoadedBitstream) (far : Nat) :
    ∀ fars : List Nat, fars.Nodup → far ∈ fars →
      ((fars.map (perFarData g s)).flatten).countP (fun a => a.far_value == far)
        = (perFarData g s far).length := by
  intro fars
  induction fars with
  | nil => intro _ h; cases h
  | cons hd tl ih =>
    intro hnd hmem
    rw [List.map_cons, List.flatten_cons, List.countP_append]
    rcases List.mem_cons.mp hmem with he | hm
    · subst he
      have h1 : (perFarData g s far).countP (fun a => a.far_value == far)
          = (perFarData g s far).length :=
        List.countP_eq_length.mpr (by
          intro a ha
          simpa using perFarData_far_value ha)
      have h2 : ((tl.map (perFarData g s)).flatten).countP
          (fun a => a.far_value == far) = 0 := by
        apply List.countP_eq_zero.mpr
        intro a ha
        obtain ⟨l', hl', hal⟩ := List.mem_flatten.mp ha
        obtain ⟨far', hfar', hfl⟩ := List.mem_map.mp hl'
        rw [← hfl] at hal
        have hav := perFarData_far_value hal
        have hne : far' ≠ far := fun hh => (List.nodup_cons.mp hnd).1 (hh ▸ hfar')
        simp [hav, hne]
      rw [h1, h2]
      omega
    · have hne : hd ≠ far := fun hh => (List.nodup_cons.mp hnd).1 (hh ▸ hm)
      have h1 : (perFarData g s hd).countP (fun a => a.far_value == far) = 0 := by
        apply List.countP_eq_zero.mpr
        intro a ha
        have hav := perFarData_far_value ha
        simp [hav]
        exact hne
      rw [h1, ih (List.nodup_cons.mp hnd).2 hm]
      omega

theorem createModified_none {gf sf : AdaptedFrame} {t : Bool} {rd : Option Payload}
    (h : (compareFrames (rd.getD gf.frame_data) sf.frame_data).length < 5) :
    createModifiedAnomaly gf sf t rd = none := by
  simp only [createModifiedAnomaly]
  rw [if_pos h]

theorem createModified_some {gf sf : AdaptedFrame} {t : Bool} {rd : Option Payload}
    (h : ¬ (compareFrames (rd.getD gf.frame_data) sf.frame_data).length < 5) :
    ∃ a, createModifiedAnomaly gf sf t rd = some a := by
  simp only [createModifiedAnomaly]
  rw [if_neg h]
  exact ⟨_, rfl⟩

theorem perFarData_modified {g : GoldenBaseline} {s : LoadedBitstream}
    {far : Nat} {gf sf : AdaptedFrame}
    (hgf : lastWrite g.frames far = some gf)
    (hsf : lastWrite s.frames far = some sf)
    (hne : gf.frame_data ≠ sf.frame_data) :
    perFarData g s far = (createModifiedAnomaly gf sf false none).toList := by
  unfold perFarData
  rw [hgf, hsf]
  simp only
  rw [if_pos hne]

/-- Number of report anomalies carrying a given FAR. -/
def countFarAnomalies (r : Report) (far : Nat) : Nat :=
  r.anomalies.countP (fun a => a.far_value == far)

theorem countFarAnomalies_split {g : GoldenBaseline} {s : LoadedBitstream}
    {r : Report} (far : Nat) (hok : detect g s = .ok r) :
    countFarAnomalies r far =
      (addedAnomalies g s).countP (fun a => a.far_value == far)
        + (dataAnomalies g s).countP (fun a => a.far_value == far) := by
  unfold countFarAnomalies
  rw [detect_ok_anomalies hok, List.countP_map, List.countP_map,
    ← List.countP_append]
  rfl

/-- Claim C7 (confirmed): the Phase-2 noise floor boundary.  For a FAR common
to golden and suspect whose effective payloads differ in exactly 4 bit
positions the finished report contains no anomaly for that FAR; with exactly
5 differing bit positions it contains exactly one. -/
theorem C7_noise_floor_boundary (g : GoldenBaseline) (s : LoadedBitstream)
    (far : Nat) (gf sf : AdaptedFrame) (r : Report)
    (hok : detect g s = .ok r)
    (hcommon : far ∈ commonFars g s)
    (hgf : lastWrite g.frames far = some gf)
    (hsf : lastWrite s.frames far = some sf) :
    ((compareFrames gf.frame_data sf.frame_data).length = 4 →
      countFarAnomalies r far = 0) ∧
    ((compareFrames gf.frame_data sf.frame_data).length = 5 →
      countFarAnomalies r far = 1) := by
  have hsplit := countFarAnomalies_split far hok
  have hadded : (addedAnomalies g s).countP (fun a => a.far_value == far) = 0 := by
    apply List.countP_eq_zero.mpr
    intro a ha
    have h1 := addedFars_not_golden (addedAnomalies_far ha)
    have h2 := (commonFars_mem hcommon).1
    simp
    intro he
    exact h1 (he ▸ h2)
  have hdata : (dataAnomalies g s).countP (fun a => a.far_value == far)
      = (perFarData g s far).length :=
    countP_flatten_far g s far (commonFars g s) (commonFars_nodup g s) hcommon
  constructor
  · intro h4
    have hne : gf.frame_data ≠ sf.frame_data :=
      frame_data_ne_of_compareFrames (by rw [← List.length_pos_iff_ne_nil]; omega)
    have hlt : (compareFrames ((none : Option Payload).getD gf.frame_data)
        sf.frame_data).length < 5 := by
      show (compareFrames gf.frame_data sf.frame_data).length < 5
      omega
    rw [hsplit, hadded, hdata, perFarData_modified hgf hsf hne,
      createModified_none hlt]
    rfl
  · intro h5
    have hne : gf.frame_data ≠ sf.frame_data :=
      frame_data_ne_of_compareFrames (by rw [← List.length_pos_iff_ne_nil]; omega)
    have hge : ¬ (compareFrames ((none : Option Payload).getD gf.frame_data)
        sf.frame_data).length < 5 := by
      show ¬ (compareFrames gf.frame_data sf.frame_data).length < 5
      omega
    obtain ⟨a, ha⟩ := createModified_some (t := false) hge
    rw [hsplit, hadded, hdata, perFarData_modified hgf hsf hne, ha]
    rfl

/-! ## Claim C9 — added frames bypass the noise floor -/

theorem createAdded_eq {s : LoadedBitstream} {far : Nat} {sf : AdaptedFrame}
    (hsf : lastWrite s.frames far = some sf) :
    ∃ a, createAddedAnomaly s far = some a ∧ a.far_value = far ∧
      a.anomaly_type = .frameAdded ∧
      a.bits_changed = countSetBits sf.frame_data ∧ a.transient = false := by
  unfold createAddedAnomaly
  rw [hsf]
  exact ⟨_, rfl, rfl, rfl, rfl, rfl⟩

/-- Claim C9 (confirmed, implicit behaviour): every FAR present in the
suspect but absent from the golden baseline yields a `FRAME_ADDED` anomaly
unconditionally — `_create_added_frame_anomaly` applies no noise floor, so
this holds even when the suspect payload has fewer than 5 set bits (the
theorem places no constraint on `countSetBits sf.frame_data`; the witness
exercises it with 0 set bits) — with `bits_changed` equal to the popcount of
the suspect payload. -/
theorem C9_added_frame_unconditional (g : GoldenBaseline) (s : LoadedBitstream)
    (far : Nat) (sf : AdaptedFrame) (r : Report)
    (hok : detect g s = .ok r)
    (hadd : far ∈ addedFars g s)
    (hsf : lastWrite s.frames far = some sf) :
    ∃ a ∈ r.anomalies, a.far_value = far ∧ a.anomaly_type = .frameAdded ∧
      a.bits_changed = countSetBits sf.frame_data ∧ a.transient = false := by
  obtain ⟨a0, hc, hfv, hty, hbits, htr⟩ := createAdded_eq hsf
  have hmem0 : a0 ∈ addedAnomalies g s :=
    List.mem_filterMap.mpr ⟨far, hadd, hc⟩
  refine ⟨assessAnomaly (classifyAnomaly g a0), ?_, ?_, ?_, ?_, ?_⟩
  · rw [detect_ok_anomalies hok]
    exact List.mem_map_of_mem _
      (List.mem_map_of_mem _ (List.mem_append_left _ hmem0))
  · rw [classify_assess_far_value]
    exact hfv
  · rw [assess_type, classify_type_not_modified g a0 (by simp [hty])]
    exact hty
  · rw [classify_assess_bits]
    exact hbits
  · rw [classify_assess_transient]
    exact htr

/-! ## Claim C6 — transient history mismatches -/

theorem perFarData_transient {g : GoldenBaseline} {s : LoadedBitstream}
    {far : Nat} {gf sf : AdaptedFrame}
    (hgf : lastWrite g.frames far = some gf)
    (hsf : lastWrite s.frames far = some sf)
    (heq : gf.frame_data = sf.frame_data)
    (hgh : goldenHistory g far ≠ [])
    (hsh : writesFor s.frames far ≠ []) :
    perFarData g s far =
      transientMismatches gf (writesFor s.frames far) (goldenHistory g far) := by
  unfold perFarData
  rw [hgf, hsf]
  simp only
  rw [if_neg (by simp [heq]), if_pos ⟨hgh, hsh⟩]

theorem transientMismatches_mem_prefix {gf : AdaptedFrame}
    {sh : List AdaptedFrame} {gh : List Payload} {i : Nat}
    (hi : i < min sh.length gh.length)
    (hne : (sh.getD i default).frame_data ≠ gh.getD i [])
    (hbig : ¬ (compareFrames (gh.getD i [])
        (sh.getD i default).frame_data).length < 5) :
    ∃ a ∈ transientMismatches gf sh gh,
      a.far_value = gf.far_value ∧ a.transient = true := by
  obtain ⟨a, ha⟩ :=
    @createModified_some gf (sh.getD i default) true (some (gh.getD i [])) hbig
  refine ⟨a, ?_, (createModified_fields ha).1, (createModified_fields ha).2⟩
  simp only [transientMismatches]
  apply List.mem_append_left
  apply List.mem_filterMap.mpr
  refine ⟨i, List.mem_range.mpr hi, ?_⟩
  show (if (sh.getD i default).frame_data ≠ gh.getD i [] then
      createModifiedAnomaly gf (sh.getD i default) true (some (gh.getD i []))
    else none) = some a
  rw [if_pos hne]
  exact ha

theorem transientMismatches_mem_extra {gf : AdaptedFrame}
    {sh : List AdaptedFrame} {gh : List Payload} {i : Nat}
    (hz : min sh.length gh.length ≤ i) (hi : i < sh.length)
    (hbig : ¬ (compareFrames gf.frame_data
        (sh.getD i default).frame_data).length < 5) :
    ∃ a ∈ transientMismatches gf sh gh,
      a.far_value = gf.far_value ∧ a.transient = true := by
  have hlen : gh.length < sh.length := by omega
  obtain ⟨a, ha⟩ :=
    @createModified_some gf (sh.getD i default) true (some gf.frame_data) hbig
  refine ⟨a, ?_, (createModified_fields ha).1, (createModified_fields ha).2⟩
  simp only [transientMismatches]
  apply List.mem_append_right
  rw [if_pos hlen]
  apply List.mem_filterMap.mpr
  refine ⟨i, List.mem_range'_1.mpr ⟨hz, by omega⟩, ha⟩

/-- Claim C6, amended: for every FAR common to golden and suspect whose
effective payloads are equal but whose write histories differ at some index
`i` (within the common prefix, or as an extra suspect write beyond the golden
history) WHERE THE DIFFERING WRITE DEVIATES FROM ITS REFERENCE IN AT LEAST 5
BIT POSITIONS (the same `min_bits_for_significance` noise floor that guards
Phase-2 data diffs also filters transient mismatches — the counterexample
shows a 1-bit transient deviation produces no anomaly at all), the finished
report contains an anomaly for that FAR with `transient = true` and final
severity at least HIGH (HIGH or CRITICAL). -/
theorem C6_transient_amended (g : GoldenBaseline) (s : LoadedBitstream)
    (far : Nat) (gf sf : AdaptedFrame) (r : Report) (i : Nat)
    (hok : detect g s = .ok r)
    (hcommon : far ∈ commonFars g s)
    (hgf : lastWrite g.frames far = some gf)
    (hsf : lastWrite s.frames far = some sf)
    (heq : gf.frame_data = sf.frame_data)
    (hdiff :
      (i < min (writesFor s.frames far).length (goldenHistory g far).length ∧
        ((writesFor s.frames far).getD i default).frame_data
            ≠ (goldenHistory g far).getD i [] ∧
        5 ≤ (compareFrames ((goldenHistory g far).getD i [])
              (((writesFor s.frames far).getD i default).frame_data)).length)
      ∨
      (min (writesFor s.frames far).length (goldenHistory g far).length ≤ i ∧
        i < (writesFor s.frames far).length ∧
        5 ≤ (compareFrames gf.frame_data
              (((writesFor s.frames far).getD i default).frame_data)).length)) :
    ∃ a ∈ r.anomalies, a.far_value = far ∧ a.transient = true ∧
      (a.severity = .high ∨ a.severity = .critical) := by
  have hgh : goldenHistory g far ≠ [] := by
    unfold goldenHistory
    simp [writesFor_ne_nil (commonFars_mem hcommon).1]
  have hsh : writesFor s.frames far ≠ [] :=
    writesFor_ne_nil (commonFars_mem hcommon).2
  have hper := perFarData_transient hgf hsf heq hgh hsh
  have hex : ∃ a ∈ transientMismatches gf (writesFor s.frames far)
      (goldenHistory g far), a.far_value = gf.far_value ∧ a.transient = true := by
    rcases hdiff with ⟨h1, h2, h3⟩ | ⟨h1, h2, h3⟩
    · exact transientMismatches_mem_prefix h1 h2 (by omega)
    · exact transientMismatches_mem_extra h1 h2 (by omega)
  obtain ⟨a0, hmem, hfv, htr⟩ := hex
  have hmem2 : a0 ∈ dataAnomalies g s := by
    unfold dataAnomalies
    apply List.mem_flatten.mpr
    exact ⟨perFarData g s far, List.mem_map_of_mem _ hcommon,
           by rw [hper]; exact hmem⟩
  refine ⟨assessAnomaly (classifyAnomaly g a0), ?_, ?_, ?_, ?_⟩
  · rw [detect_ok_anomalies hok]
    exact List.mem_map_of_mem _
      (List.mem_map_of_mem _ (List.mem_append_right _ hmem2))
  · rw [classify_assess_far_value, hfv, lastWrite_far_value hgf]
  · rw [classify_assess_transient]
    exact htr
  · have htr2 : (classifyAnomaly g a0).transient = true := htr
    rw [assess_severity_eq]
    exact calculateSeverity_transient _ htr2

/-! ## Concrete detection runs used by the remaining claims -/

/-- A 164-byte all-zero payload. -/
def zeroPayload : Payload := List.replicate 164 0

/-- `zeroPayload` with the first byte replaced (MSB-first, so byte value 0xF8
sets bits 0-4: five bits; 0xF0 sets four; 0x80 one; 0xFF eight). -/
def headBytePayload (b : Nat) : Payload := b :: List.replicate 163 0

/-- A CLK-column frame: block CLK(5), bottom, column 23, minor 2. -/
def clkFrame (p : Payload) : AdaptedFrame := ⟨farEncode 5 0 23 2, 5, 0, 23, 2, p⟩

/-- A CLB-column frame: block CLB(0), bottom, column 1, minor 5 (a routing
minor). -/
def clbFrame (p : Payload) : AdaptedFrame := ⟨farEncode 0 0 1 5, 0, 0, 1, 5, p⟩

/-! ## Claim C1 — severity counts and verdict vs final severities

`AnomalyReport.add_anomaly` increments the per-severity counters with the
severity the anomaly carries when it is added — always the tentative MEDIUM
(added/modified) or LOW (removed).  `_assess_severity` then rewrites the
severity of each anomaly in place, but the counters are never recomputed and
`finalize` derives `trojan_detected` from the stale counters.  Consequently
`critical_count`/`high_count` can never reflect the final severities and
`trojan_detected` is always `false`, contradicting the claim (and the spec's
scenarios 3 and 4, which expect `trojan_detected = true`). -/

/-- Claim C1 (code bug), evaluated at the failing input: golden and suspect
share the single CLK frame at FAR `encode(5,0,23,2)` whose payloads differ in
5 bits.  The run ends with exactly one anomaly of final severity CRITICAL,
yet `critical_count = 0`, `medium_count = 1` (the add-time tentative
severity) and `trojan_detected = false`. -/
theorem C1_verdict_ignores_final_severity :
    (detect ⟨[clkFrame zeroPayload], []⟩ ⟨[clkFrame (headBytePayload 0xF8)]⟩).map
        (fun r => (r.anomalies.map (fun a => a.severity),
                   r.critical_count, r.high_count, r.medium_count,
                   r.trojan_detected))
      = .ok ([SeverityLevel.critical], 0, 0, 1, false) := by
  rfl

/-! ## Claim C2 — removed frames raise a NameError

`_create_removed_frame_anomaly` (frame_differential_detector.py line 333)
passes `golden_data=reference`, but no name `reference` is bound anywhere in
that function (it is a local of `_create_modified_frame_anomaly`).  The first
FAR in `G \ S` whose golden frame exists therefore raises
`NameError: name 'reference' is not defined`, and `detect` never returns a
report — the claim's promised `FRAME_REMOVED` anomaly is unreachable. -/

/-- Claim C2 (code bug), evaluated at the failing input: golden holds one
frame (non-zero payload) that the suspect omits; `detect` raises instead of
reporting a `FRAME_REMOVED` anomaly. -/
theorem C2_removed_frame_raises :
    removedFars ⟨[clbFrame (headBytePayload 0xF8)], []⟩ ⟨[]⟩
      = [farEncode 0 0 1 5] ∧
    detect ⟨[clbFrame (headBytePayload 0xF8)], []⟩ ⟨[]⟩
      = .error ("NameError: name reference is not defined") := by
  exact ⟨rfl, rfl⟩

/-! ## Claim C6 — counterexample and witness -/

/-- Claim C6, counterexample: golden has one write of the all-zero payload to
the CLB FAR; the suspect writes a 1-bit-different payload first and then the
golden payload.  Effective payloads agree and the histories differ at index 0,
but the transient deviation is 1 bit — below the 5-bit noise floor — so the
report contains NO anomaly at all, against the claim's promised
`transient = true` anomaly of severity ≥ HIGH. -/
theorem C6_transient_counterexample :
    ((writesFor [clbFrame (headBytePayload 0x80), clbFrame zeroPayload]
        (farEncode 0 0 1 5)).getD 0 default).frame_data
      ≠ (goldenHistory ⟨[clbFrame zeroPayload], []⟩ (farEncode 0 0 1 5)).getD 0 [] ∧
    (lastWrite [clbFrame zeroPayload] (farEncode 0 0 1 5)).map
        (fun f => f.frame_data)
      = (lastWrite [clbFrame (headBytePayload 0x80), clbFrame zeroPayload]
          (farEncode 0 0 1 5)).map (fun f => f.frame_data) ∧
    (detect ⟨[clbFrame zeroPayload], []⟩
        ⟨[clbFrame (headBytePayload 0x80), clbFrame zeroPayload]⟩).map
        (fun r => r.anomalies)
      = .ok [] := by
  exact ⟨by decide, rfl, rfl⟩

/-- Witness for `C6_transient_amended`: same run but with an 8-bit transient
deviation (byte 0xFF), which clears the noise floor. -/
theorem C6_transient_amended_witness :
    ∃ r, detect ⟨[clbFrame zeroPayload], []⟩
        ⟨[clbFrame (headBytePayload 0xFF), clbFrame zeroPayload]⟩ = .ok r ∧
      ∃ a ∈ r.anomalies, a.far_value = farEncode 0 0 1 5 ∧
        a.transient = true ∧ (a.severity = .high ∨ a.severity = .critical) := by
  obtain ⟨r, hr⟩ : ∃ r, detect ⟨[clbFrame zeroPayload], []⟩
      ⟨[clbFrame (headBytePayload 0xFF), clbFrame zeroPayload]⟩ = .ok r := ⟨_, rfl⟩
  exact ⟨r, hr,
    C6_transient_amended ⟨[clbFrame zeroPayload], []⟩
      ⟨[clbFrame (headBytePayload 0xFF), clbFrame zeroPayload]⟩
      (farEncode 0 0 1 5) (clbFrame zeroPayload) (clbFrame zeroPayload) r 0 hr
      (by decide) rfl rfl rfl
      (Or.inl ⟨by decide, by decide, by decide⟩)⟩

/-- Witness for `C7_noise_floor_boundary`: a 4-bit diff (byte 0xF0) yields no
anomaly for the FAR; a 5-bit diff (byte 0xF8) yields exactly one. -/
theorem C7_noise_floor_boundary_witness :
    (∃ r, detect ⟨[clbFrame zeroPayload], []⟩
        ⟨[clbFrame (headBytePayload 0xF0)]⟩ = .ok r ∧
      countFarAnomalies r (farEncode 0 0 1 5) = 0) ∧
    (∃ r, detect ⟨[clbFrame zeroPayload], []⟩
        ⟨[clbFrame (headBytePayload 0xF8)]⟩ = .ok r ∧
      countFarAnomalies r (farEncode 0 0 1 5) = 1) := by
  constructor
  · obtain ⟨r, hr⟩ : ∃ r, detect ⟨[clbFrame zeroPayload], []⟩
        ⟨[clbFrame (headBytePayload 0xF0)]⟩ = .ok r := ⟨_, rfl⟩
    exact ⟨r, hr,
      (C7_noise_floor_boundary ⟨[clbFrame zeroPayload], []⟩
        ⟨[clbFrame (headBytePayload 0xF0)]⟩ (farEncode 0 0 1 5)
        (clbFrame zeroPayload) (clbFrame (headBytePayload 0xF0)) r hr
        (by decide) rfl rfl).1 (by decide)⟩
  · obtain ⟨r, hr⟩ : ∃ r, detect ⟨[clbFrame zeroPayload], []⟩
        ⟨[clbFrame (headBytePayload 0xF8)]⟩ = .ok r := ⟨_, rfl⟩
    exact ⟨r, hr,
      (C7_noise_floor_boundary ⟨[clbFrame zeroPayload], []⟩
        ⟨[clbFrame (headBytePayload 0xF8)]⟩ (farEncode 0 0 1 5)
        (clbFrame zeroPayload) (clbFrame (headBytePayload 0xF8)) r hr
        (by decide) rfl rfl).2 (by decide)⟩

/-- Witness for `C9_added_frame_unconditional`: the suspect adds an ALL-ZERO
frame in CLB column 2 (popcount 0, far below the 5-bit noise floor); the
report still contains a `FRAME_ADDED` anomaly for it with
`bits_changed = 0`. -/
theorem C9_added_frame_unconditional_witness :
    countSetBits zeroPayload = 0 ∧
    ∃ r, detect ⟨[clbFrame zeroPayload], []⟩
        ⟨[clbFrame zeroPayload, ⟨farEncode 0 0 2 3, 0, 0, 2, 3, zeroPayload⟩]⟩
        = .ok r ∧
      ∃ a ∈ r.anomalies, a.far_value = farEncode 0 0 2 3 ∧
        a.anomaly_type = .frameAdded ∧
        a.bits_changed = countSetBits zeroPayload ∧ a.transient = false := by
  refine ⟨by decide, ?_⟩
  obtain ⟨r, hr⟩ : ∃ r, detect ⟨[clbFrame zeroPayload], []⟩
      ⟨[clbFrame zeroPayload, ⟨farEncode 0 0 2 3, 0, 0, 2, 3, zeroPayload⟩]⟩
      = .ok r := ⟨_, rfl⟩
  exact ⟨r, hr,
    C9_added_frame_unconditional ⟨[clbFrame zeroPayload], []⟩
      ⟨[clbFrame zeroPayload, ⟨farEncode 0 0 2 3, 0, 0, 2, 3, zeroPayload⟩]⟩
      (farEncode 0 0 2 3) ⟨farEncode 0 0 2 3, 0, 0, 2, 3, zeroPayload⟩ r hr
      (by decide) rfl⟩

/-! ## Claim C10 — a Type-1 single-word WRITE to any register updates the FAR

`do_lexing` recognizes a Type-1 packet with `op = WRITE` and
`word_count = 1` as a FAR write without ever inspecting `reg_address`
(`(hdr >> 13) & 0xFFFF`); the main `lexer` loop then sets `last_far` from the
consumed word.  Subsequent FDRI frame data is therefore addressed from the
value written by ANY single-word Type-1 write, not only writes to the FAR
register. -/

/-- Claim C10 (confirmed): for every lexer state and every 32-bit header
word at the current position whose type field is 1 (`hdr[31:29] = 001`),
opcode is WRITE (`hdr[28:27] = 10`) and word count is 1 (`hdr[12:0] = 1`) —
with NO constraint on the register-address field `hdr[28:13]` — one
iteration of the lexer loop consumes the following 32-bit word as the new
FAR value: it advances 8 bytes and replaces `last_far` with the interpreted
fields of that word. -/
theorem C10_far_write_any_register (payload : List Nat) (pos : Nat)
    (lf : Option LexFar) (res : List FrameObj)
    (hlen : pos + 8 ≤ payload.length)
    (hty : ((wordToNat ((payload.drop pos).take 4)) >>> 29) &&& 0x7 = 1)
    (hop : ((wordToNat ((payload.drop pos).take 4)) >>> 27) &&& 0x3 = 2)
    (hwc : (wordToNat ((payload.drop pos).take 4)) &&& 0x1FFF = 1) :
    lexerIter ⟨payload, pos, lf, res⟩ =
      .ok ⟨payload, pos + 8,
           some (interpretFar ((payload.drop (pos + 4)).take 4)), res⟩ := by
  have h4 : pos + 4 ≤ payload.length := by omega
  have hpk : ¬ ((payload.drop pos).take 4).length < 4 := by
    rw [List.length_take, List.length_drop]
    omega
  have h8 : pos + 4 + 4 ≤ payload.length := by omega
  unfold lexerIter lexAdvance doLexing
  simp only [h4, if_pos, hpk, if_neg, hty, hop, hwc]
  simp only [if_true, if_false, and_self, ite_true, ite_false, h8, lexAdvance]

/-- Witness for `C10_far_write_any_register`: the header word `0x30002001`
(type 1, WRITE, word count 1) addresses register `0x8001` — not the FAR
register — yet the lexer still takes the following word `0xAABBCCDD` as the
new FAR. -/
theorem C10_far_write_any_register_witness :
    ((wordToNat [0x30, 0x00, 0x20, 0x01] >>> 13) &&& 0xFFFF) = 0x8001 ∧
    lexerIter ⟨[0x30, 0x00, 0x20, 0x01, 0xAA, 0xBB, 0xCC, 0xDD], 0, none, []⟩
      = .ok ⟨[0x30, 0x00, 0x20, 0x01, 0xAA, 0xBB, 0xCC, 0xDD], 8,
             some (interpretFar [0xAA, 0xBB, 0xCC, 0xDD]), []⟩ := by
  refine ⟨by decide, ?_⟩
  have h := C10_far_write_any_register
    [0x30, 0x00, 0x20, 0x01, 0xAA, 0xBB, 0xCC, 0xDD] 0 none []
    (by decide) (by decide) (by decide) (by decide)
  simpa using h

end HTTrojan
